import Mathlib

/-!
Shallow embedding of src/weather-dashboard/src/weather_dashboard.py.

External effects are modelled as explicit oracle parameters: the outcome of
each boto3 S3 call is an Except String Unit (ok = call returned, error =
call raised), the outcome of one requests.get call is an HttpOutcome, and
the wall clock read by datetime.now() is a DateTime value.  Python dicts
(the parsed JSON bodies) are association lists preserving insertion order,
matching dict semantics.
-/

namespace WeatherApp

/-- JSON values as returned by the weather API and stored in S3.  Numbers are
modelled as integers (every number in the claims under study is integral);
string escaping in serialization is elided, since no string handled here
contains a character that json.dumps would escape. -/
inductive JVal : Type where
  | null : JVal
  | num : Int → JVal
  | str : String → JVal
  | arr : List JVal → JVal
  | obj : List (String × JVal) → JVal

/-- Python truthiness of a JSON value (used by `if not weather_data` and
`if weather_data`): None, 0, empty string, empty list and empty dict are
falsy, everything else is truthy. -/
def jtruthy : JVal → Bool
  | .null => false
  | .num n => n != 0
  | .str s => s != ""
  | .arr es => !es.isEmpty
  | .obj fs => !fs.isEmpty

/-- Lookup of a key in a Python dict (first match; dicts hold each key once). -/
def dictLookup : List (String × JVal) → String → Option JVal
  | [], _ => none
  | (k, v) :: fs, key => if k = key then some v else dictLookup fs key

/-- Python dict assignment d[k] = v: replaces the value in place when the key
exists (keeping its position), otherwise appends the new key at the end. -/
def dictSet : List (String × JVal) → String → JVal → List (String × JVal)
  | [], key, v => [(key, v)]
  | (k, w) :: fs, key, v =>
    if k = key then (key, v) :: fs else (k, w) :: dictSet fs key v

/-- Python subscript v[key] with a string key: KeyError when the key is absent
from a dict, TypeError when the value is not a dict. -/
def pyGetItem (v : JVal) (key : String) : Except String JVal :=
  match v with
  | .obj fs =>
    match dictLookup fs key with
    | some w => .ok w
    | none => .error ("KeyError: " ++ key)
  | _ => .error "TypeError: value is not subscriptable by string"

/-- Python subscript v[i] with an integer index on a list. -/
def pyIndex (v : JVal) (i : Nat) : Except String JVal :=
  match v with
  | .arr es =>
    match es.get? i with
    | some w => .ok w
    | none => .error "IndexError: list index out of range"
  | _ => .error "TypeError: value is not indexable"

/-- Python item assignment v[key] = x: succeeds only on a dict, raising
TypeError otherwise. -/
def pySetItem (v : JVal) (key : String) (x : JVal) : Except String JVal :=
  match v with
  | .obj fs => .ok (.obj (dictSet fs key x))
  | _ => .error "TypeError: object does not support item assignment"

/-- Rendering of a JSON value inside the orchestrator's f-strings (Python
str()).  The orchestrator only ever renders numbers and strings. -/
def pyStr : JVal → String
  | .null => "None"
  | .num n => toString n
  | .str s => s
  | .arr _ => "[...]"
  | .obj _ => "\x7b...\x7d"

mutual

/-- Embedding of json.dumps with its default separators (comma-space and
colon-space). -/
def json_dumps : JVal → String
  | .null => "null"
  | .num n => toString n
  | .str s => "\"" ++ s ++ "\""
  | .arr es => "[" ++ dumpsElems es ++ "]"
  | .obj fs => "\x7b" ++ dumpsFields fs ++ "\x7d"

/-- Comma-separated serialization of the elements of a JSON array. -/
def dumpsElems : List JVal → String
  | [] => ""
  | [v] => json_dumps v
  | v :: vs => json_dumps v ++ ", " ++ dumpsElems vs

/-- Comma-separated serialization of the fields of a JSON object. -/
def dumpsFields : List (String × JVal) → String
  | [] => ""
  | [(k, v)] => "\"" ++ k ++ "\": " ++ json_dumps v
  | (k, v) :: fs => "\"" ++ k ++ "\": " ++ json_dumps v ++ ", " ++ dumpsFields fs

end

/-- One wall-clock reading, as produced by datetime.now(). -/
structure DateTime where
  year : Nat
  month : Nat
  day : Nat
  hour : Nat
  minute : Nat
  second : Nat
deriving DecidableEq

/-- Field ranges every value returned by datetime.now() satisfies. -/
def DateTime.valid (t : DateTime) : Prop :=
  1 ≤ t.year ∧ t.year ≤ 9999 ∧ 1 ≤ t.month ∧ t.month ≤ 12 ∧
  1 ≤ t.day ∧ t.day ≤ 31 ∧ t.hour ≤ 23 ∧ t.minute ≤ 59 ∧ t.second ≤ 59

instance (t : DateTime) : Decidable t.valid := by
  unfold DateTime.valid
  infer_instance

/-- Decimal digit character for n mod 10. -/
def digitChar (n : Nat) : Char := Char.ofNat (48 + n % 10)

/-- Two zero-padded decimal digits, as strftime's %m %d %H %M %S produce for
every in-range value. -/
def pad2 (n : Nat) : List Char := [digitChar (n / 10), digitChar n]

/-- Four zero-padded decimal digits, as strftime's %Y produces for every year
of a valid datetime. -/
def pad4 (n : Nat) : List Char :=
  [digitChar (n / 1000), digitChar (n / 100), digitChar (n / 10), digitChar n]

/-- Embedding of datetime.strftime with format %Y%m%d-%H%M%S: fixed-width
zero-padded decimal fields, agreeing with the C library on every valid
datetime. -/
def strftime_compact (t : DateTime) : String :=
  String.mk (pad4 t.year ++ pad2 t.month ++ pad2 t.day ++ ['-'] ++
    pad2 t.hour ++ pad2 t.minute ++ pad2 t.second)

/-- Check of the shape YYYYMMDD-HHMMSS: fifteen characters, a hyphen at index
eight, decimal digits everywhere else. -/
def matchesTsPattern (s : String) : Bool :=
  match s.data with
  | [y1, y2, y3, y4, mo1, mo2, d1, d2, dash, h1, h2, mi1, mi2, s1, s2] =>
    dash == '-' &&
      ([y1, y2, y3, y4, mo1, mo2, d1, d2, h1, h2, mi1, mi2, s1, s2].all Char.isDigit)
  | _ => false

/-- Outcome record of one create_bucket_if_not_exists call: which S3 calls
were issued, what was printed, and whether an exception escaped to the
caller. -/
structure BucketResult where
  headCalled : Bool
  createCalled : Bool
  log : List String
  escalated : Bool
deriving DecidableEq

/-- Embedding of WeatherDashboard.create_bucket_if_not_exists.  In the source
the first try statement wraps only head_bucket and its two prints; the second
try statement, which issues create_bucket, is a separate top-level statement
and not part of the first except clause, so create_bucket is issued on both
paths.  Every exception of either call is caught, so nothing escalates. -/
def create_bucket_if_not_exists (bucket : String) (head : Except String Unit)
    (create : Except String Unit) : BucketResult :=
  let log1 :=
    match head with
    | .ok _ => ["Bucket " ++ bucket ++ " exists"]
    | .error _ => ["Creating bucket " ++ bucket]
  let log2 :=
    match create with
    | .ok _ => ["Successfully created bucket " ++ bucket]
    | .error e => ["Error creating bucket: " ++ e]
  { headCalled := true, createCalled := true, log := log1 ++ log2,
    escalated := false }

/-- Behaviour of the HTTP layer for one requests.get call: either the request
raises a RequestException in transit, or a response arrives with a status
code and a parsed JSON body. -/
inductive HttpOutcome : Type where
  | transportError : String → HttpOutcome
  | response : Nat → JVal → HttpOutcome

/-- Embedding of requests.Response.raise_for_status: it raises HTTPError
exactly for client-error (4xx) and server-error (5xx) status codes. -/
def raiseForStatus (status : Nat) : Bool :=
  decide (400 ≤ status) && decide (status < 600)

/-- Message text of the HTTPError raised by raise_for_status. -/
def httpErrorText (status : Nat) : String :=
  toString status ++ " Error for url"

/-- Outcome record of one fetch_weather call: the returned value (none models
Python None), what was printed, and whether an exception escaped to the
caller. -/
structure FetchResult where
  result : Option JVal
  log : List String
  raised : Bool

/-- Embedding of WeatherDashboard.fetch_weather.  The try block wraps the GET,
raise_for_status and response.json(); the except clause catches every
RequestException (transport errors and the HTTPError from raise_for_status),
prints it and returns None. -/
def fetch_weather (city : String) (h : HttpOutcome) : FetchResult :=
  match h with
  | .transportError e =>
    { result := none, log := ["Error fetching weather data: " ++ e],
      raised := false }
  | .response status body =>
    if raiseForStatus status then
      { result := none,
        log := ["Error fetching weather data: " ++ httpErrorText status],
        raised := false }
    else
      { result := some body, log := [], raised := false }

/-- One put_object request as the S3 client receives it. -/
structure PutRequest where
  bucket : String
  key : String
  body : String
  contentType : String
deriving DecidableEq

/-- Outcome record of one save_to_s3 call: the boolean return value, the
put_object request when one was issued, the final state of the caller's
weather_data object (the dict is mutated in place), and what was printed. -/
structure S3Result where
  returned : Bool
  putCalled : Option PutRequest
  weather_out : Option JVal
  log : List String

/-- Embedding of WeatherDashboard.save_to_s3.  A falsy weather_data returns
False at once.  Otherwise the timestamp and file name are computed outside
the try block; inside it the timestamp is assigned into the dict and
put_object is issued; any exception of the try block is caught, printed and
turned into a False return. -/
def save_to_s3 (bucket city : String) (now : DateTime) (up : Except String Unit)
    (weather_data : Option JVal) : S3Result :=
  match weather_data with
  | none => { returned := false, putCalled := none, weather_out := none, log := [] }
  | some w =>
    if jtruthy w = false then
      { returned := false, putCalled := none, weather_out := some w, log := [] }
    else
      let timestamp := strftime_compact now
      let file_name := "weather-data/" ++ city ++ "-" ++ timestamp ++ ".json"
      match pySetItem w "timestamp" (.str timestamp) with
      | .error e =>
        { returned := false, putCalled := none, weather_out := some w,
          log := ["Error saving to S3: " ++ e] }
      | .ok w2 =>
        let req : PutRequest :=
          { bucket := bucket, key := file_name, body := json_dumps w2,
            contentType := "application/json" }
        match up with
        | .ok _ =>
          { returned := true, putCalled := some req, weather_out := some w2,
            log := ["Successfully saved data for " ++ city ++ " to S3"] }
        | .error e =>
          { returned := false, putCalled := some req, weather_out := some w2,
            log := ["Error saving to S3: " ++ e] }

/-- Embedding of the orchestrator's field extraction: the four subscript
chains run in source order, and the first failing subscript raises. -/
def extract4 (w : JVal) : Except String (JVal × JVal × JVal × JVal) := do
  let m1 ← pyGetItem w "main"
  let temp ← pyGetItem m1 "temp"
  let m2 ← pyGetItem w "main"
  let feels_like ← pyGetItem m2 "feels_like"
  let m3 ← pyGetItem w "main"
  let humidity ← pyGetItem m3 "humidity"
  let warr ← pyGetItem w "weather"
  let w0 ← pyIndex warr 0
  let description ← pyGetItem w0 "description"
  return (temp, feels_like, humidity, description)

/-- Outcome record of one iteration of the orchestrator's city loop: what was
printed, the put_object request if one was issued, and the unhandled
exception if one was raised (terminating the run). -/
structure StepOut where
  log : List String
  put : Option PutRequest
  crash : Option String

/-- One iteration of the loop body in WeatherDashboard.main for one city:
print the fetching line, fetch, and on a truthy result extract and print the
four fields (an extraction failure is unhandled and crashes the run), then
archive and print; on a falsy result print the failure line. -/
def process_city (bucket city : String) (now : DateTime) (h : HttpOutcome)
    (up : Except String Unit) : StepOut :=
  let l0 := "\nFetching weather for " ++ city ++ "..."
  let fr := fetch_weather city h
  match fr.result with
  | some w =>
    if jtruthy w then
      match extract4 w with
      | .error e => { log := [l0] ++ fr.log, put := none, crash := some e }
      | .ok (temp, feels_like, humidity, description) =>
        let printed :=
          ["Temperature: " ++ pyStr temp ++ "°F",
           "Feels like: " ++ pyStr feels_like ++ "°F",
           "Humidity: " ++ pyStr humidity ++ "%",
           "Conditions: " ++ pyStr description]
        let sr := save_to_s3 bucket city now up (some w)
        let tail :=
          if sr.returned then ["Weather data for " ++ city ++ " saved to S3!"]
          else []
        { log := [l0] ++ fr.log ++ printed ++ sr.log ++ tail,
          put := sr.putCalled, crash := none }
    else
      { log := [l0] ++ fr.log ++ ["Failed to fetch weather data for " ++ city],
        put := none, crash := none }
  | none =>
    { log := [l0] ++ fr.log ++ ["Failed to fetch weather data for " ++ city],
      put := none, crash := none }

/-- Outcome record of the whole city loop: everything printed, every
put_object request issued, and the unhandled exception if one aborted it. -/
structure RunOut where
  log : List String
  puts : List PutRequest
  crash : Option String

/-- The orchestrator's for-loop over the city list.  An unhandled exception
in one iteration propagates and aborts the remaining iterations. -/
def run_cities (bucket : String) (now : DateTime) (h : String → HttpOutcome)
    (up : String → Except String Unit) : List String → RunOut
  | [] => { log := [], puts := [], crash := none }
  | city :: rest =>
    let s := process_city bucket city now (h city) (up city)
    match s.crash with
    | some e => { log := s.log, puts := s.put.toList, crash := some e }
    | none =>
      let r := run_cities bucket now h up rest
      { log := s.log ++ r.log, puts := s.put.toList ++ r.puts,
        crash := r.crash }

/-- The hardcoded city list of WeatherDashboard.main. -/
def cities : List String := ["Nairobi", "Machakos", "Chwele"]

/-- Embedding of WeatherDashboard.main: ensure the bucket, then run the loop
over the hardcoded city list. -/
def main_run (bucket : String) (now : DateTime)
    (head create : Except String Unit) (h : String → HttpOutcome)
    (up : String → Except String Unit) : BucketResult × RunOut :=
  (create_bucket_if_not_exists bucket head create,
   run_cities bucket now h up cities)

/-- Helper: the digit-extraction character is always a decimal digit. -/
lemma digitChar_isDigit (n : Nat) : (digitChar n).isDigit = true := by
  unfold digitChar
  have h : n % 10 < 10 := Nat.mod_lt _ (by norm_num)
  set m := n % 10 with hm
  interval_cases m <;> decide

/-- Helper: every strftime %Y%m%d-%H%M%S rendering matches YYYYMMDD-HHMMSS. -/
lemma matchesTsPattern_strftime (t : DateTime) :
    matchesTsPattern (strftime_compact t) = true := by
  show matchesTsPattern (String.mk _) = true
  simp [strftime_compact, pad4, pad2, matchesTsPattern, digitChar_isDigit]

/-- Helper: looking up a key just assigned into a dict yields that value. -/
lemma dictLookup_dictSet_self (fs : List (String × JVal)) (k : String) (v : JVal) :
    dictLookup (dictSet fs k v) k = some v := by
  induction fs with
  | nil => simp [dictSet, dictLookup]
  | cons a l ih =>
    obtain ⟨ka, va⟩ := a
    by_cases hk : ka = k
    · simp [dictSet, dictLookup, hk]
    · simp [dictSet, dictLookup, hk, ih]

/-- Claim C1: the claim states that bucket creation is attempted exactly when
the metadata check fails.  The code violates this: the second try statement
sits outside the first except clause, so create_bucket is issued
unconditionally — this theorem evaluates the embedded function and shows the
creation attempt happens even when head_bucket succeeds (while, as the claim
also says, a creation failure is only logged and never escalated). -/
theorem create_bucket_attempted_even_when_metadata_check_succeeds
    (bucket : String) (create : Except String Unit) :
    (create_bucket_if_not_exists bucket (.ok ()) create).createCalled = true ∧
    (create_bucket_if_not_exists bucket (.ok ()) create).escalated = false :=
  ⟨rfl, rfl⟩

/-- Claim C3: save_to_s3 given a null observation returns false immediately
and never issues a put_object call. -/
theorem save_to_s3_none_observation (bucket city : String) (now : DateTime)
    (up : Except String Unit) :
    (save_to_s3 bucket city now up none).returned = false ∧
    (save_to_s3 bucket city now up none).putCalled = none :=
  ⟨rfl, rfl⟩

/-- Claim C9: an empty dict is falsy, so save_to_s3 also returns false
immediately on it and never issues a put_object call. -/
theorem save_to_s3_empty_dict_observation (bucket city : String)
    (now : DateTime) (up : Except String Unit) :
    (save_to_s3 bucket city now up (some (.obj []))).returned = false ∧
    (save_to_s3 bucket city now up (some (.obj []))).putCalled = none :=
  ⟨rfl, rfl⟩

/-- Claim C10: for a non-empty dict observation, the timestamp field is
assigned into the caller's object before put_object runs, so when the upload
raises, save_to_s3 returns false yet the caller's object has already been
mutated to contain the timestamp (and the upload was indeed attempted). -/
theorem save_to_s3_mutates_observation_despite_failed_upload
    (bucket city e : String) (now : DateTime) (fs : List (String × JVal))
    (hfs : fs ≠ []) :
    (save_to_s3 bucket city now (.error e) (some (.obj fs))).returned = false ∧
    (save_to_s3 bucket city now (.error e) (some (.obj fs))).weather_out =
      some (.obj (dictSet fs "timestamp" (.str (strftime_compact now)))) ∧
    dictLookup (dictSet fs "timestamp" (.str (strftime_compact now)))
      "timestamp" = some (.str (strftime_compact now)) ∧
    (save_to_s3 bucket city now (.error e) (some (.obj fs))).putCalled ≠
      none := by
  cases fs with
  | nil => exact absurd rfl hfs
  | cons a l =>
    refine ⟨rfl, rfl, dictLookup_dictSet_self _ _ _, ?_⟩
    intro hcontra
    exact Option.some_ne_none _ hcontra

theorem save_to_s3_mutates_observation_despite_failed_upload_witness :
    (save_to_s3 "bkt" "Nairobi" ⟨2026, 10, 12, 9, 30, 0⟩ (.error "boom")
      (some (.obj [("main", .num 1)]))).weather_out =
      some (.obj [("main", .num 1),
        ("timestamp", .str (strftime_compact ⟨2026, 10, 12, 9, 30, 0⟩))]) :=
  (save_to_s3_mutates_observation_despite_failed_upload "bkt" "Nairobi"
    "boom" ⟨2026, 10, 12, 9, 30, 0⟩ [("main", .num 1)]
    (List.cons_ne_nil _ _)).2.1

/-- Claim C8: in a successful save_to_s3 call, the timestamp embedded in the
object key and the timestamp field injected into the uploaded body are the
same string — one clock reading (strftime_compact now) produces both. -/
theorem archive_key_and_body_share_one_timestamp (bucket city : String)
    (now : DateTime) (up : Except String Unit) (fs : List (String × JVal))
    (hfs : fs ≠ [])
    (hret : (save_to_s3 bucket city now up (some (.obj fs))).returned = true) :
    (save_to_s3 bucket city now up (some (.obj fs))).putCalled =
      some { bucket := bucket,
             key := "weather-data/" ++ city ++ "-" ++ strftime_compact now
               ++ ".json",
             body := json_dumps
               (.obj (dictSet fs "timestamp" (.str (strftime_compact now)))),
             contentType := "application/json" } ∧
    dictLookup (dictSet fs "timestamp" (.str (strftime_compact now)))
      "timestamp" = some (.str (strftime_compact now)) := by
  cases fs with
  | nil => exact absurd rfl hfs
  | cons a l =>
    cases up with
    | error e => exact absurd hret (by simp [save_to_s3, jtruthy, pySetItem])
    | ok u => exact ⟨rfl, dictLookup_dictSet_self _ _ _⟩

theorem archive_key_and_body_share_one_timestamp_witness :
    (save_to_s3 "bkt" "Nairobi" ⟨2026, 10, 12, 9, 30, 0⟩ (.ok ())
      (some (.obj [("main", .num 1)]))).putCalled =
      some { bucket := "bkt",
             key := "weather-data/" ++ "Nairobi" ++ "-"
               ++ strftime_compact ⟨2026, 10, 12, 9, 30, 0⟩ ++ ".json",
             body := json_dumps (.obj (dictSet [("main", .num 1)] "timestamp"
               (.str (strftime_compact ⟨2026, 10, 12, 9, 30, 0⟩)))),
             contentType := "application/json" } :=
  (archive_key_and_body_share_one_timestamp "bkt" "Nairobi"
    ⟨2026, 10, 12, 9, 30, 0⟩ (.ok ()) [("main", .num 1)]
    (List.cons_ne_nil _ _) rfl).1

/-- Claim C2: a save_to_s3 call on a non-empty dict observation with a
succeeding upload stamps the observation with a timestamp matching
YYYYMMDD-HHMMSS before serialization, issues put_object to the bucket under
key weather-data/city-timestamp.json with content type application/json and
body the JSON serialization of the stamped observation, and returns true;
and when the upload raises, the exception is caught and false is returned
instead of propagating. -/
theorem save_to_s3_success_contract (bucket city : String) (now : DateTime)
    (fs : List (String × JVal)) (hfs : fs ≠ []) (hnow : now.valid) :
    ((save_to_s3 bucket city now (.ok ()) (some (.obj fs))).returned = true ∧
     matchesTsPattern (strftime_compact now) = true ∧
     (save_to_s3 bucket city now (.ok ()) (some (.obj fs))).weather_out =
       some (.obj (dictSet fs "timestamp" (.str (strftime_compact now)))) ∧
     dictLookup (dictSet fs "timestamp" (.str (strftime_compact now)))
       "timestamp" = some (.str (strftime_compact now)) ∧
     (save_to_s3 bucket city now (.ok ()) (some (.obj fs))).putCalled =
       some { bucket := bucket,
              key := "weather-data/" ++ city ++ "-" ++ strftime_compact now
                ++ ".json",
              body := json_dumps
                (.obj (dictSet fs "timestamp" (.str (strftime_compact now)))),
              contentType := "application/json" }) ∧
    ∀ e, (save_to_s3 bucket city now (.error e)
      (some (.obj fs))).returned = false := by
  cases fs with
  | nil => exact absurd rfl hfs
  | cons a l =>
    exact ⟨⟨rfl, matchesTsPattern_strftime now, rfl,
      dictLookup_dictSet_self _ _ _, rfl⟩, fun e => rfl⟩

theorem save_to_s3_success_contract_witness :
    (save_to_s3 "bkt" "Nairobi" ⟨2026, 10, 12, 9, 30, 0⟩ (.ok ())
      (some (.obj [("main", .num 1)]))).returned = true :=
  ((save_to_s3_success_contract "bkt" "Nairobi" ⟨2026, 10, 12, 9, 30, 0⟩
    [("main", .num 1)] (List.cons_ne_nil _ _) (by decide)).1).1

/-- Helper: raise_for_status fires exactly on 4xx and 5xx status codes. -/
lemma raiseForStatus_iff (s : Nat) :
    raiseForStatus s = true ↔ 400 ≤ s ∧ s < 600 := by
  unfold raiseForStatus
  simp

/-- Claim C4 counterexample: status 304 is not a 2xx response, yet
fetch_weather returns the parsed body rather than None, refuting "on any
non-2xx HTTP response it returns null". -/
theorem fetch_weather_non2xx_counterexample :
    ¬(200 ≤ 304 ∧ 304 ≤ 299) ∧
    (fetch_weather "Nairobi" (.response 304 (.obj [("a", .num 1)]))).result =
      some (.obj [("a", .num 1)]) ∧
    (fetch_weather "Nairobi" (.response 304 (.obj [("a", .num 1)]))).result ≠
      none :=
  ⟨by decide, rfl, fun hcontra => Option.some_ne_none _ hcontra⟩

/-- Claim C4 (amended): for every city and every behaviour of the HTTP
layer, fetch_weather returns the parsed JSON body on any response whose
status code is outside 400-599 (in particular on every 2xx response); on any
transport error or any 4xx/5xx response it logs the error and returns null;
and it never raises an exception to the caller. -/
theorem fetch_weather_status_partition (city e : String) (s : Nat)
    (b : JVal) :
    (fetch_weather city (.transportError e)).result = none ∧
    (fetch_weather city (.transportError e)).log ≠ [] ∧
    (fetch_weather city (.transportError e)).raised = false ∧
    (200 ≤ s ∧ s ≤ 299 →
      (fetch_weather city (.response s b)).result = some b) ∧
    (400 ≤ s ∧ s < 600 →
      (fetch_weather city (.response s b)).result = none ∧
      (fetch_weather city (.response s b)).log ≠ []) ∧
    (¬(400 ≤ s ∧ s < 600) →
      (fetch_weather city (.response s b)).result = some b) ∧
    (fetch_weather city (.response s b)).raised = false := by
  have hout : ∀ hr : raiseForStatus s = false,
      fetch_weather city (.response s b) =
        { result := some b, log := [], raised := false } := by
    intro hr
    simp [fetch_weather, hr]
  refine ⟨rfl, by simp [fetch_weather], rfl, ?_, ?_, ?_, ?_⟩
  · intro h2
    have hr : raiseForStatus s = false := by
      rw [Bool.eq_false_iff]
      intro ht
      have := (raiseForStatus_iff s).1 ht
      omega
    rw [hout hr]
  · intro h45
    have hr : raiseForStatus s = true := (raiseForStatus_iff s).2 h45
    simp [fetch_weather, hr]
  · intro hnot
    have hr : raiseForStatus s = false := by
      rw [Bool.eq_false_iff]
      intro ht
      exact hnot ((raiseForStatus_iff s).1 ht)
    rw [hout hr]
  · cases hb : raiseForStatus s <;> simp [fetch_weather, hb]

theorem fetch_weather_status_partition_witness :
    (fetch_weather "Nairobi" (.response 200 (.obj [("a", .num 1)]))).result =
      some (.obj [("a", .num 1)]) :=
  (fetch_weather_status_partition "Nairobi" "boom" 200
    (.obj [("a", .num 1)])).2.2.2.1 ⟨by decide, by decide⟩

/-- Helper: when the fetched body is a truthy dict with no main key, the loop
iteration crashes with a KeyError after printing only the fetching line. -/
lemma process_city_crash_of_missing_main (bucket c : String) (now : DateTime)
    (up : Except String Unit) (fs : List (String × JVal)) (hne : fs ≠ [])
    (hmain : dictLookup fs "main" = none) :
    process_city bucket c now (.response 200 (.obj fs)) up =
      { log := ["\nFetching weather for " ++ c ++ "..."], put := none,
        crash := some "KeyError: main" } := by
  cases fs with
  | nil => exact absurd rfl hne
  | cons a l =>
    simp [process_city, fetch_weather, raiseForStatus, jtruthy, extract4,
      pyGetItem, hmain, Bind.bind, Except.bind]

/-- Claim C5: when fetch_weather hands the orchestrator a truthy response
whose shape is unexpected (here: no main key), the field extraction raises
an unhandled error that aborts the whole run — the loop output for
city :: rest equals the output for city alone, so no subsequent city is
processed. -/
theorem unexpected_shape_crashes_whole_run (bucket c : String)
    (now : DateTime) (rest : List String) (h : String → HttpOutcome)
    (up : String → Except String Unit) (fs : List (String × JVal))
    (hc : h c = .response 200 (.obj fs)) (hne : fs ≠ [])
    (hmain : dictLookup fs "main" = none) :
    (run_cities bucket now h up (c :: rest)).crash = some "KeyError: main" ∧
    run_cities bucket now h up (c :: rest) = run_cities bucket now h up [c] := by
  have hp := process_city_crash_of_missing_main bucket c now (up c) fs hne hmain
  constructor
  · simp [run_cities, hc, hp]
  · simp [run_cities, hc, hp]

theorem unexpected_shape_crashes_whole_run_witness :
    (run_cities "bkt" ⟨2026, 10, 12, 9, 30, 0⟩
      (fun _ => .response 200 (.obj [("weather", .null)]))
      (fun _ => .ok ()) ["Nairobi", "Machakos"]).crash =
      some "KeyError: main" :=
  (unexpected_shape_crashes_whole_run "bkt" "Nairobi"
    ⟨2026, 10, 12, 9, 30, 0⟩ ["Machakos"]
    (fun _ => .response 200 (.obj [("weather", .null)])) (fun _ => .ok ())
    [("weather", .null)] rfl (List.cons_ne_nil _ _) rfl).1

/-- Claim C7: when the API call for a city raises a transport error,
fetch_weather returns null, the iteration prints the failure line and issues
no put_object call, and the loop goes on to the remaining cities unchanged. -/
theorem transport_error_skips_archive_continues_loop (bucket c e : String)
    (now : DateTime) (rest : List String) (h : String → HttpOutcome)
    (up : String → Except String Unit) (hc : h c = .transportError e) :
    (fetch_weather c (h c)).result = none ∧
    "Failed to fetch weather data for " ++ c ∈
      (process_city bucket c now (h c) (up c)).log ∧
    (process_city bucket c now (h c) (up c)).put = none ∧
    (process_city bucket c now (h c) (up c)).crash = none ∧
    (run_cities bucket now h up (c :: rest)).log =
      (process_city bucket c now (h c) (up c)).log ++
        (run_cities bucket now h up rest).log ∧
    (run_cities bucket now h up (c :: rest)).puts =
      (run_cities bucket now h up rest).puts ∧
    (run_cities bucket now h up (c :: rest)).crash =
      (run_cities bucket now h up rest).crash := by
  rw [hc]
  have hp : process_city bucket c now (.transportError e) (up c) =
      { log := ["\nFetching weather for " ++ c ++ "...",
          "Error fetching weather data: " ++ e,
          "Failed to fetch weather data for " ++ c],
        put := none, crash := none } := by
    simp [process_city, fetch_weather]
  refine ⟨rfl, ?_, ?_, ?_, ?_, ?_, ?_⟩
  · rw [hp]
    simp
  · rw [hp]
  · rw [hp]
  · simp [run_cities, hc, hp]
  · simp [run_cities, hc, hp]
  · simp [run_cities, hc, hp]

theorem transport_error_skips_archive_continues_loop_witness :
    (fetch_weather "Nairobi"
      ((fun _ => HttpOutcome.transportError "boom") "Nairobi")).result =
      none :=
  (transport_error_skips_archive_continues_loop "bkt" "Nairobi" "boom"
    ⟨2026, 10, 12, 9, 30, 0⟩ ["Machakos"]
    (fun _ => HttpOutcome.transportError "boom") (fun _ => .ok ()) rfl).1

/-- Fields of the mocked API response of the Nairobi scenario. -/
def nairobiFields : List (String × JVal) :=
  [("main", .obj [("temp", .num 75), ("feels_like", .num 77),
     ("humidity", .num 60)]),
   ("weather", .arr [.obj [("description", .str "clear sky")]])]

/-- The mocked API response of the Nairobi scenario. -/
def nairobiResponse : JVal := .obj nairobiFields

/-- Claim C6: on the mocked Nairobi response, the orchestrator iteration
prints the four formatted weather lines, and the put_object call receives a
body that serializes all original response fields followed by the added
timestamp field. -/
theorem nairobi_scenario_output :
    "Temperature: 75°F" ∈ (process_city "bkt" "Nairobi"
      ⟨2026, 10, 12, 9, 30, 0⟩ (.response 200 nairobiResponse)
      (.ok ())).log ∧
    "Feels like: 77°F" ∈ (process_city "bkt" "Nairobi"
      ⟨2026, 10, 12, 9, 30, 0⟩ (.response 200 nairobiResponse)
      (.ok ())).log ∧
    "Humidity: 60%" ∈ (process_city "bkt" "Nairobi"
      ⟨2026, 10, 12, 9, 30, 0⟩ (.response 200 nairobiResponse)
      (.ok ())).log ∧
    "Conditions: clear sky" ∈ (process_city "bkt" "Nairobi"
      ⟨2026, 10, 12, 9, 30, 0⟩ (.response 200 nairobiResponse)
      (.ok ())).log ∧
    (process_city "bkt" "Nairobi" ⟨2026, 10, 12, 9, 30, 0⟩
      (.response 200 nairobiResponse) (.ok ())).put =
      some { bucket := "bkt",
             key := "weather-data/Nairobi-20261012-093000.json",
             body := json_dumps (.obj (nairobiFields ++
               [("timestamp", .str "20261012-093000")])),
             contentType := "application/json" } := by
  refine ⟨?_, ?_, ?_, ?_, rfl⟩ <;> decide
